import Mathlib

/-!
Verification of the task-picker extraction/merge pipeline.

Shallow embedding of the Python sources:
  * `config.py` — the compiled checkbox patterns (`unchecked`, `checked`);
  * `task_extractor.py` — `normalize_task`, `get_existing_tasks`,
    `filter_duplicates`, `append_to_tasks_file`;
  * `feedback.py` — `FeedbackEntry`, `get_examples`, `get_balanced_examples`,
    `get_stats`, `format_examples_for_prompt`;
  * `llm_analyzer.py` — `_load_feedback_examples`, `analyze_document`,
    `_parse_response`, together with a model of `json.loads`.

Modelling conventions:
  * Python text is modelled over `Char` lists.  `str.strip` removes ASCII
    whitespace at both ends; `str.lower`/`str.upper` are exact on the ASCII
    range and on the `'ß'` mappings evaluated below, and leave other
    non-ASCII characters unchanged (Python's tables are full Unicode; only
    these parts are exercised by the statements in this file).
  * The `re.MULTILINE`-anchored checkbox patterns `^(\s*)-\s*\[\s*\]\s*(.+)$`
    and `^(\s*)-\s*\[x\]\s*(.+)$` (the latter case-insensitive) are embedded
    with their real semantics: `\s` matches newlines (`re.MULTILINE` only
    changes the anchors), so a match may span lines; `finditer` attempts the
    pattern at every line start and resumes at each match end, with the
    engine's leftmost-greedy backtracking made explicit.
  * The SQLite ledger is a list of rows in insertion order; `ORDER BY
    created_at DESC` is modelled by reversing that order.
  * Fractional arithmetic (`acceptance_rate`, the recall ratio) is modelled
    over `ℚ`.
-/

namespace TaskPicker

/-- The ASCII whitespace characters of `str.strip` / `\s` (space, tab,
newline, carriage return, vertical tab, form feed).  Python additionally
treats some non-ASCII Unicode characters as whitespace; none of them occurs
in any statement below. -/
def isPySpace (c : Char) : Bool :=
  decide (c.toNat = 32 ∨ c.toNat = 9 ∨ c.toNat = 10 ∨ c.toNat = 13 ∨
    c.toNat = 11 ∨ c.toNat = 12)

/-- `str.strip()` on a character list: drop whitespace from both ends. -/
def pyStripChars (l : List Char) : List Char :=
  ((l.dropWhile isPySpace).reverse.dropWhile isPySpace).reverse

/-- `str.strip()`. -/
def pyStrip (s : String) : String := ⟨pyStripChars s.data⟩

/-- `str.lower()`.  Python's mapping is full Unicode; the model is exact on
the ASCII range and on `'ß'` (which `str.lower` keeps), and leaves the
remaining non-ASCII characters unchanged — no statement below evaluates
them. -/
def pyLower (s : String) : String := ⟨s.data.map Char.toLower⟩

/-- `str.upper()` at one character.  Python's mapping is full Unicode and
one-to-many; the model is exact on the ASCII range and on the one-to-many
mapping evaluated below (`'ß'.upper() == "SS"`), and leaves the remaining
non-ASCII characters unchanged. -/
def pyUpperChar (c : Char) : List Char :=
  if c = 'ß' then ['S', 'S'] else [Char.toUpper c]

/-- `str.upper()`. -/
def pyUpper (s : String) : String := ⟨s.data.flatMap pyUpperChar⟩

/-- `task_extractor.normalize_task`: strip, then lowercase when the
comparison is case-insensitive. -/
def normalize_task (case_insensitive : Bool) (task : String) : String :=
  let normalized := pyStrip task
  if case_insensitive then pyLower normalized else normalized

/-- Split a document into its lines.  Used only to state the per-line
claims about the checkbox patterns (the program itself runs `finditer` over
the whole text, below). -/
def splitOnNl : List Char → List (List Char)
  | [] => [[]]
  | c :: cs =>
    if c = '\n' then [] :: splitOnNl cs
    else
      match splitOnNl cs with
      | [] => [[c]]
      | l :: ls => (c :: l) :: ls

/-- The lines of a document (claim-side notion of "line present in the
document"). -/
def pyLines (s : String) : List String := (splitOnNl s.data).map (fun l => ⟨l⟩)

/-- Shared front of both checkbox patterns: `(\s*)-\s*\[` after the `^`
anchor.  Returns the indentation capture and the characters after the
opening bracket.  `\s` matches `'\n'` too (`re.MULTILINE` only changes the
anchors), so these runs may cross line boundaries.  Greedy `\s*` is
deterministic here because the character it hands over to (`-` resp. `[`)
is never whitespace. -/
def bulletHead (l : List Char) : Option (List Char × List Char) :=
  let ind := l.takeWhile isPySpace
  match l.dropWhile isPySpace with
  | '-' :: r2 =>
    (match r2.dropWhile isPySpace with
     | '[' :: r4 => some (ind, r4)
     | _ => none)
  | _ => none

/-- The trailing `\s*(.+)$` of both patterns, with the engine's backtracking
made explicit.  Greedy `\s*` may consume newlines; `(.+)` then captures the
maximal newline-free run (after which `$` always holds in `re.MULTILINE`).
When nothing follows the whitespace run, `\s*` backtracks to the last
non-newline whitespace character, which `(.+)` captures alone.  Returns
group 2 and the text after the match. -/
def tailCapture (l : List Char) : Option (List Char × List Char) :=
  match l.dropWhile isPySpace with
  | c :: r =>
    some ((c :: r).takeWhile (fun d => decide (d ≠ '\n')),
          (c :: r).dropWhile (fun d => decide (d ≠ '\n')))
  | [] =>
    let revSp := (l.takeWhile isPySpace).reverse
    let trailingNl := revSp.takeWhile (fun d => decide (d = '\n'))
    match revSp.dropWhile (fun d => decide (d = '\n')) with
    | c :: _ => some ([c], trailingNl.reverse)
    | [] => none

/-- Anchored attempt of the `unchecked` pattern `^(\s*)-\s*\[\s*\]\s*(.+)$`
at one position (the caller supplies the `^` anchor): group 2 and the text
after the match, or `none`. -/
def uncheckedAt (l : List Char) : Option (List Char × List Char) :=
  match bulletHead l with
  | none => none
  | some (_, r) =>
    match r.dropWhile isPySpace with
    | ']' :: r3 => tailCapture r3
    | _ => none

/-- Anchored attempt of the `checked` pattern `^(\s*)-\s*\[x\]\s*(.+)$`
(compiled with `re.IGNORECASE`, so the marker is `x` or `X`). -/
def checkedAt (l : List Char) : Option (List Char × List Char) :=
  match bulletHead l with
  | none => none
  | some (_, r) =>
    match r with
    | c :: r2 =>
      if c = 'x' ∨ c = 'X' then
        match r2 with
        | ']' :: r3 => tailCapture r3
        | _ => none
      else none
    | [] => none

/-- `re.finditer` for a `^`-anchored pattern under `re.MULTILINE`: attempt
the pattern at every line start (position 0 or right after a newline),
collect group 2 of each match, and resume scanning at the match end.  A
match always ends right after a non-newline character, so the resume
position is never a line start itself.  The fuel only bounds the scan;
`finditer` supplies `length + 1`, enough to visit every position. -/
def finditerAux (matchAt : List Char → Option (List Char × List Char)) :
    Nat → List Char → Bool → List (List Char)
  | 0, _, _ => []
  | fuel + 1, l, atLineStart =>
    match (if atLineStart then matchAt l else none) with
    | some (g, rest) => g :: finditerAux matchAt fuel rest false
    | none =>
      match l with
      | [] => []
      | c :: rest => finditerAux matchAt fuel rest (decide (c = '\n'))

/-- All group-2 captures of a pattern over a document, leftmost first. -/
def finditer (matchAt : List Char → Option (List Char × List Char))
    (text : List Char) : List (List Char) :=
  finditerAux matchAt (text.length + 1) text true

/-- `llm_analyzer.ImplicitTask`: an implicit task detected by LLM analysis. -/
structure ImplicitTask where
  task : String
  reason : String
  confidence : String
  source_text : String
deriving DecidableEq

/-- `task_extractor.ExtendedTaskResult`: pattern-extracted candidates plus
LLM-detected implicit tasks, incomplete sections and unanswered questions. -/
structure ExtendedTaskResult where
  added : List String
  completed : List String
  todos : List String
  implicit : List ImplicitTask
  incomplete_sections : List String
  unanswered_questions : List String
deriving DecidableEq

/-- `task_extractor.get_existing_tasks`: the normalized group-2 capture of
every `finditer` match of the unchecked pattern, then of the checked
pattern, over the output document.  The Python code collects these into a
set; here it is a list queried by membership.  Because `\s*` crosses
newlines, a match may swallow a following checkbox line into its capture,
so this set is not simply "one entry per checkbox line". -/
def get_existing_tasks (case_insensitive : Bool) (doc : String) : List String :=
  (finditer uncheckedAt doc.data).map (fun g => normalize_task case_insensitive ⟨g⟩)
    ++ (finditer checkedAt doc.data).map (fun g => normalize_task case_insensitive ⟨g⟩)

/-- Confidence glyph for implicit tasks:
`{"high": "!", "medium": "?", "low": "~"}.get(confidence, "?")`. -/
def confMarker (c : String) : String :=
  if c = "high" then "!" else if c = "medium" then "?"
  else if c = "low" then "~" else "?"

/-- The lines rendered for one implicit task (checklist line with confidence
glyph, plus an indented reason line when the reason is non-empty). -/
def renderImplicit (t : ImplicitTask) : List String :=
  let base := "- [ ] [" ++ confMarker t.confidence ++ "] " ++ t.task ++ "\n"
  if t.reason ≠ "" then [base, "  - Reason: " ++ t.reason ++ "\n"] else [base]

/-- The `lines` list composed by `append_to_tasks_file`: a timestamped
section header naming the source, then one labeled subsection per non-empty
category. -/
def buildLines (source timestamp : String) (added completed todos : List String)
    (implicit : List ImplicitTask) (incomplete unanswered : List String) :
    List String :=
  ["\n## Tasks from " ++ source ++ " (" ++ timestamp ++ ")\n"]
  ++ (if added ≠ [] then
        "\n### New Tasks\n" :: added.map (fun t => "- [ ] " ++ t ++ "\n") else [])
  ++ (if completed ≠ [] then
        "\n### Completed\n" :: completed.map (fun t => "- [x] " ++ t ++ "\n") else [])
  ++ (if todos ≠ [] then
        "\n### TODO/FIXME\n" :: todos.map (fun t => "- [ ] " ++ t ++ "\n") else [])
  ++ (if implicit ≠ [] then
        "\n### Implicit Tasks (AI-detected)\n" :: (implicit.map renderImplicit).flatten else [])
  ++ (if incomplete ≠ [] then
        "\n### Incomplete Sections\n"
          :: incomplete.map (fun s => "- [ ] Complete section: " ++ s ++ "\n") else [])
  ++ (if unanswered ≠ [] then
        "\n### Unanswered Questions\n"
          :: unanswered.map (fun q => "- [ ] Answer: " ++ q ++ "\n") else [])

/-- Result of one `append_to_tasks_file` call: the output document after the
call, whether the file was written, and the per-category lists that were
rendered and counted (post duplicate-filtering). -/
structure MergeOutcome where
  doc : String
  wrote : Bool
  added : List String
  completed : List String
  todos : List String
  implicit : List ImplicitTask
  incomplete_sections : List String
  unanswered_questions : List String
deriving DecidableEq

/-- The duplicate-filtering prelude of `append_to_tasks_file`: the local
`added`/`completed`/`todos` lists after `filter_duplicates` and the
`implicit` list after its own duplicate filter, gathered in a record.  The
Python code calls `get_existing_tasks()` twice (once for the pattern
categories, once for the implicit ones) on the same unchanged file; both
reads are the single `existing` here. -/
def filtered_tasks (skip_duplicates case_insensitive : Bool) (doc : String)
    (tasks : ExtendedTaskResult) : ExtendedTaskResult :=
  let existing := get_existing_tasks case_insensitive doc
  { added := if skip_duplicates then
        tasks.added.filter (fun t => decide (normalize_task case_insensitive t ∉ existing))
      else tasks.added,
    completed := if skip_duplicates then
        tasks.completed.filter (fun t => decide (normalize_task case_insensitive t ∉ existing))
      else tasks.completed,
    todos := if skip_duplicates then
        tasks.todos.filter (fun t => decide (normalize_task case_insensitive t ∉ existing))
      else tasks.todos,
    implicit := if skip_duplicates && !tasks.implicit.isEmpty then
        tasks.implicit.filter (fun t => decide (normalize_task case_insensitive t.task ∉ existing))
      else tasks.implicit,
    incomplete_sections := tasks.incomplete_sections,
    unanswered_questions := tasks.unanswered_questions }

/-- `task_extractor.append_to_tasks_file`.  `doc` is the current content of
the output document (the Python code reads it through `get_existing_tasks`
and appends to it); `skip_duplicates` and `case_insensitive` are the dedup
configuration; `timestamp` stands for `datetime.now()`.  When nothing is
left after filtering the function returns without writing. -/
def append_to_tasks_file (skip_duplicates case_insensitive : Bool) (doc : String)
    (tasks : ExtendedTaskResult) (source timestamp : String) : MergeOutcome :=
  let f := filtered_tasks skip_duplicates case_insensitive doc tasks
  let has_content := !f.added.isEmpty || !f.completed.isEmpty || !f.todos.isEmpty
    || !f.implicit.isEmpty || !f.incomplete_sections.isEmpty
    || !f.unanswered_questions.isEmpty
  if has_content then
    { doc := doc ++ String.join (buildLines source timestamp f.added f.completed
        f.todos f.implicit f.incomplete_sections f.unanswered_questions),
      wrote := true, added := f.added, completed := f.completed, todos := f.todos,
      implicit := f.implicit, incomplete_sections := f.incomplete_sections,
      unanswered_questions := f.unanswered_questions }
  else
    { doc := doc, wrote := false, added := f.added, completed := f.completed,
      todos := f.todos, implicit := f.implicit,
      incomplete_sections := f.incomplete_sections,
      unanswered_questions := f.unanswered_questions }

/-- The four judgment kinds allowed by the `feedback` CHECK constraint. -/
inductive Judgment where
  | accepted
  | rejected
  | modified
  | missed
deriving DecidableEq

/-- `feedback.FeedbackEntry`: one row of the ledger. -/
structure FeedbackEntry where
  task_text : String
  source_text : String
  source_file : String
  feedback : Judgment
  modified_text : Option String
  reason : Option String
  confidence : String
  created_at : String
  tags : List String
deriving DecidableEq

/-- Number of ledger rows with the given judgment
(`SUM(CASE WHEN feedback = j THEN 1 ELSE 0 END)`). -/
def countJudgment (j : Judgment) (ledger : List FeedbackEntry) : Nat :=
  (ledger.filter (fun e => decide (e.feedback = j))).length

/-- `feedback.FeedbackStats`. -/
structure FeedbackStats where
  total : Nat
  accepted : Nat
  rejected : Nat
  modified : Nat
  missed : Nat
  acceptance_rate : ℚ
  recall_issues : Nat
deriving DecidableEq

/-- `FeedbackStore.get_stats`: one aggregate pass over the ledger.  The
acceptance rate divides by detected feedback only (missed entries are
excluded from the denominator) and is 0.0 for an empty denominator. -/
def get_stats (ledger : List FeedbackEntry) : FeedbackStats :=
  let total := ledger.length
  let accepted := countJudgment .accepted ledger
  let rejected := countJudgment .rejected ledger
  let modified := countJudgment .modified ledger
  let missed := countJudgment .missed ledger
  let detected_total := accepted + rejected + modified
  let acceptance_rate : ℚ :=
    if 0 < detected_total then (accepted : ℚ) / (detected_total : ℚ) else 0
  { total := total, accepted := accepted, rejected := rejected,
    modified := modified, missed := missed,
    acceptance_rate := acceptance_rate, recall_issues := missed }

/-- `FeedbackStore.get_examples`: newest-first, optionally filtered by
judgment, limited.  The ledger list is in insertion order and `created_at`
is stamped at insertion, so `ORDER BY created_at DESC` is the reverse of
insertion order. -/
def get_examples (ledger : List FeedbackEntry) (feedback_type : Option Judgment)
    (limit : Nat) : List FeedbackEntry :=
  match feedback_type with
  | some j => ((ledger.filter (fun e => decide (e.feedback = j))).reverse).take limit
  | none => ledger.reverse.take limit

/-- The result of `FeedbackStore.get_balanced_examples`: one bucket per
judgment kind. -/
structure BalancedExamples where
  accepted : List FeedbackEntry
  rejected : List FeedbackEntry
  modified : List FeedbackEntry
  missed : List FeedbackEntry
deriving DecidableEq

/-- `FeedbackStore.get_balanced_examples`: each of the four kinds queried
independently with the same per-kind limit. -/
def get_balanced_examples (ledger : List FeedbackEntry) (count_per_type : Nat) :
    BalancedExamples :=
  { accepted := get_examples ledger (some .accepted) count_per_type,
    rejected := get_examples ledger (some .rejected) count_per_type,
    modified := get_examples ledger (some .modified) count_per_type,
    missed := get_examples ledger (some .missed) count_per_type }

/-- The bucket of a `BalancedExamples` value for a given judgment kind. -/
def balancedBucket (b : BalancedExamples) : Judgment → List FeedbackEntry
  | .accepted => b.accepted
  | .rejected => b.rejected
  | .modified => b.modified
  | .missed => b.missed

/-- `ex['source_text'][:100]`. -/
def truncate100 (s : String) : String := ⟨s.data.take 100⟩

/-- `feedback.format_examples_for_prompt`: the feedback context block, four
optional subsections in fixed order, joined with newlines. -/
def format_examples_for_prompt (ex : BalancedExamples) : String :=
  let lines : List String :=
    (if ex.accepted ≠ [] then
        "## Examples of GOOD task detections (user accepted):"
          :: ex.accepted.flatMap (fun e =>
            ["- Source: \"" ++ truncate100 e.source_text ++ "...\"",
             "  Task: \"" ++ e.task_text ++ "\"",
             "  Confidence: " ++ e.confidence, ""])
      else [])
    ++ (if ex.rejected ≠ [] then
        "## Examples of FALSE POSITIVES (user rejected):"
          :: ex.rejected.flatMap (fun e =>
            ["- Source: \"" ++ truncate100 e.source_text ++ "...\"",
             "  Suggested task: \"" ++ e.task_text ++ "\""]
            ++ (match e.reason with
                | some r => ["  Reason for rejection: " ++ r]
                | none => [])
            ++ [""])
      else [])
    ++ (if ex.modified ≠ [] then
        "## Examples of MODIFIED tasks (user improved):"
          :: ex.modified.flatMap (fun e =>
            ["- Original: \"" ++ e.task_text ++ "\"",
             "  User's version: \"" ++ (e.modified_text.getD "") ++ "\"", ""])
      else [])
    ++ (if ex.missed ≠ [] then
        ["## Examples of MISSED tasks (should have been detected):",
         "IMPORTANT: These are tasks the user had to add manually because they were not detected.",
         "Look for similar patterns and make sure to detect them!", ""]
        ++ ex.missed.flatMap (fun e =>
            ["- Missed task: \"" ++ e.task_text ++ "\""]
            ++ (if e.source_text ≠ "" then
                  ["  Source text: \"" ++ truncate100 e.source_text ++ "...\""] else [])
            ++ (match e.reason with
                | some r => ["  Why it should be detected: " ++ r]
                | none => [])
            ++ [""])
      else [])
  String.intercalate "\n" lines

/-- Rendering of `f"{rate:.1%}"`; the precise digits of this float
formatting are immaterial to every property below (the formatted text is
never inspected), so one decimal is approximated by flooring. -/
def percentFmt (q : ℚ) : String :=
  toString ((q * 1000).floor) ++ "e-1%"

/-- The `## Feedback Statistics:` block appended to the feedback context. -/
def statsBlock (stats : FeedbackStats) : String :=
  "\n\n## Feedback Statistics:\n"
  ++ "- Total feedback: " ++ toString stats.total ++ "\n"
  ++ "- Acceptance rate: " ++ percentFmt stats.acceptance_rate ++ "\n"
  ++ "- Missed tasks reported: " ++ toString stats.missed ++ "\n"

/-- The conservatism directive appended when the acceptance rate is low. -/
def conservatismNote : String :=
  "\nNote: Low acceptance rate suggests being more conservative "
  ++ "with task detection. Focus on high-confidence detections.\n"

/-- The aggressiveness directive pointing at the missed examples. -/
def aggressivenessNote (missed : Nat) : String :=
  "\nIMPORTANT: " ++ toString missed ++ " tasks were missed (not detected). "
  ++ "Be more aggressive in detecting implicit tasks. "
  ++ "Look carefully at the MISSED examples above and detect similar patterns.\n"

/-- The pieces `LLMAnalyzer._load_feedback_examples` concatenates into
`self._feedback_context` once the 3-entry threshold is met: the examples
block with the statistics lines, then the two optional derived directives
(each present exactly when its condition in the code holds). -/
structure FeedbackGuidance where
  base : String
  conservatism : Option String
  aggressiveness : Option String

/-- The guidance derived from the ledger by `_load_feedback_examples`:
conservatism when `acceptance_rate < 0.5`; aggressiveness when
`missed > 0` and the recall ratio `missed / (accepted + missed)` exceeds
`0.1`. -/
def feedback_guidance (ledger : List FeedbackEntry) : FeedbackGuidance :=
  let stats := get_stats ledger
  let base := format_examples_for_prompt (get_balanced_examples ledger 3)
    ++ statsBlock stats
  let conservatism :=
    if stats.acceptance_rate < 1/2 then some conservatismNote else none
  let aggressiveness :=
    if 0 < stats.missed then
      let recall_ratio : ℚ :=
        if 0 < stats.accepted + stats.missed then
          (stats.missed : ℚ) / ((stats.accepted : ℚ) + (stats.missed : ℚ))
        else 0
      if 1/10 < recall_ratio then some (aggressivenessNote stats.missed) else none
    else none
  { base := base, conservatism := conservatism, aggressiveness := aggressiveness }

/-- `self._feedback_context` after `_load_feedback_examples`: empty unless
the ledger holds at least 3 entries in total. -/
def feedback_context (ledger : List FeedbackEntry) : String :=
  if 3 ≤ (get_stats ledger).total then
    let g := feedback_guidance ledger
    g.base ++ g.conservatism.getD "" ++ g.aggressiveness.getD ""
  else ""

/-- `llm_analyzer.ANALYSIS_PROMPT`: the fixed task-specification system
prompt (braces of the embedded JSON example written as escapes). -/
def ANALYSIS_PROMPT : String :=
  String.intercalate "\n"
    ["あなたはドキュメント分析のエキスパートです。",
     "与えられたドキュメントを分析し、暗黙的なタスクや未完成の箇所を検出してください。",
     "",
     "以下を探してください：",
     "1. **暗黙的なタスク**: 明示的に「- [ ]」とマークされていないが、やるべきことを示唆する文",
     "   - 例: 「後で確認する」「要検討」「〜が必要」「〜すべき」",
     "2. **未完成セクション**: 空のセクション、「TBD」「WIP」「Draft」などの記載",
     "3. **未回答の質問**: 「？」で終わる文で回答がないもの",
     "4. **フォローアップ項目**: 「次回」「明日」「来週」などの時間表現を含むアクション",
     "",
     "JSON形式で回答してください：",
     "```json",
     "\x7b",
     "  \"implicit_tasks\": [",
     "    \x7b",
     "      \"task\": \"タスクの内容\",",
     "      \"reason\": \"なぜこれがタスクと判断したか\",",
     "      \"confidence\": \"high/medium/low\",",
     "      \"source_text\": \"元のテキスト\"",
     "    \x7d",
     "  ],",
     "  \"incomplete_sections\": [\"セクション名1\", \"セクション名2\"],",
     "  \"unanswered_questions\": [\"質問1\", \"質問2\"],",
     "  \"summary\": \"ドキュメント全体の完成度についての短い要約\"",
     "\x7d",
     "```",
     "",
     "注意：",
     "- 既に「- [ ]」や「- [x]」でマークされているタスクは除外",
     "- TODO:, FIXME: など明示的なマーカーも除外（別途処理される）",
     "- 確信度が低いものも含めてOK（ユーザーが判断できるように）"]
  ++ "\n"

/-- The system prompt `analyze_document` sends: the fixed analysis prompt,
with the feedback history section appended only when the feedback context
is non-empty (and feedback use is enabled). -/
def system_prompt (use_feedback : Bool) (ledger : List FeedbackEntry) : String :=
  let ctx := if use_feedback then feedback_context ledger else ""
  if ctx ≠ "" then ANALYSIS_PROMPT ++ "\n\n# User Feedback History\n" ++ ctx
  else ANALYSIS_PROMPT

/-- The opening-brace character (written by code point to keep braces out of
literals). -/
def lbrace : Char := Char.ofNat 123

/-- The closing-brace character. -/
def rbrace : Char := Char.ofNat 125

/-- First index at or after `i` where `sub` occurs in `s` (fuelled scan). -/
def findSubAux (s sub : List Char) : Nat → Nat → Option Nat
  | 0, _ => none
  | fuel + 1, i =>
    if sub.isPrefixOf (s.drop i) then some i
    else findSubAux s sub fuel (i + 1)

/-- Python `s.find(sub, start)`: the first occurrence index, or `-1`. -/
def pyFindFrom (s sub : List Char) (start : Nat) : Int :=
  match findSubAux s sub (s.length + 1 - start) start with
  | some i => (i : Int)
  | none => -1

/-- Python `s.find(sub)`. -/
def pyFind (s sub : List Char) : Int := pyFindFrom s sub 0

/-- Python `s.find(c)` for a single character. -/
def pyFindChar (s : List Char) (c : Char) : Int :=
  match s.findIdx? (fun x => x = c) with
  | some i => (i : Int)
  | none => -1

/-- Python `s.rfind(c)` for a single character. -/
def pyRFindChar (s : List Char) (c : Char) : Int :=
  match s.reverse.findIdx? (fun x => x = c) with
  | some j => (s.length : Int) - 1 - (j : Int)
  | none => -1

/-- Python slice `s[a:b]` with negative-index normalization and clamping. -/
def pySlice (s : List Char) (a b : Int) : List Char :=
  let n : Int := s.length
  let lo := if a < 0 then n + a else a
  let lo := if lo < 0 then 0 else lo
  let hi := if b < 0 then n + b else b
  let hi := if hi < 0 then 0 else hi
  (s.take hi.toNat).drop lo.toNat

/-- The JSON-extraction step of `LLMAnalyzer._parse_response`: JSON fenced in
a ```json block, else in a plain ``` block (stripped), else the bare span
from the first opening brace to the last closing brace. -/
def extractJson (text : List Char) : List Char :=
  let fj := pyFind text ("```json".data)
  if 0 ≤ fj then
    let start := fj + 7
    let stop := pyFindFrom text ("```".data) start.toNat
    pyStripChars (pySlice text start stop)
  else
    let f := pyFind text ("```".data)
    if 0 ≤ f then
      let start := f + 3
      let stop := pyFindFrom text ("```".data) start.toNat
      pyStripChars (pySlice text start stop)
    else
      let start := pyFindChar text lbrace
      let stop := pyRFindChar text rbrace + 1
      pySlice text start stop

/-- JSON values, as produced by `json.loads`.  Numbers keep their raw
lexeme: no verified property inspects a numeric value. -/
inductive JsonVal where
  | null
  | boolean (b : Bool)
  | number (raw : List Char)
  | string (s : List Char)
  | array (xs : List JsonVal)
  | object (kvs : List (List Char × JsonVal))

/-- JSON insignificant whitespace. -/
def skipJsonWs (l : List Char) : List Char :=
  l.dropWhile (fun c => c = ' ' || c = '\t' || c = '\n' || c = '\r')

/-- JSON string body after the opening quote: content (raw, escapes kept)
and the rest after the closing quote. -/
def parseJsonString : List Char → Option (List Char × List Char)
  | [] => none
  | '"' :: rest => some ([], rest)
  | '\\' :: c :: rest =>
    (parseJsonString rest).map (fun p => ('\\' :: c :: p.1, p.2))
  | '\\' :: [] => none
  | c :: rest => (parseJsonString rest).map (fun p => (c :: p.1, p.2))

/-- Leading digit run. -/
def parseDigits (l : List Char) : List Char × List Char :=
  (l.takeWhile Char.isDigit, l.dropWhile Char.isDigit)

/-- Optional exponent part of a JSON number, given the raw lexeme so far. -/
def parseExpPart (raw : List Char) (l : List Char) : Option (JsonVal × List Char) :=
  match l with
  | c :: rest =>
    if c = 'e' ∨ c = 'E' then
      let (sgn, r1) :=
        match rest with
        | '+' :: r => (['+'], r)
        | '-' :: r => (['-'], r)
        | _ => (([] : List Char), rest)
      let (es, r2) := parseDigits r1
      if es = [] then none
      else some (JsonVal.number (raw ++ c :: (sgn ++ es)), r2)
    else some (JsonVal.number raw, l)
  | [] => some (JsonVal.number raw, [])

/-- JSON number: `-?digits(.digits)?([eE][+-]?digits)?`. -/
def parseJsonNumber (l : List Char) : Option (JsonVal × List Char) :=
  let (neg, l1) :=
    match l with
    | '-' :: r => ((['-'] : List Char), r)
    | _ => ([], l)
  let (ds, l2) := parseDigits l1
  if ds = [] then none
  else
    match l2 with
    | '.' :: r =>
      let (fs, l3) := parseDigits r
      if fs = [] then none else parseExpPart (neg ++ ds ++ '.' :: fs) l3
    | _ => parseExpPart (neg ++ ds) l2

mutual

/-- Fuelled recursive-descent JSON value parser (the fuel only bounds
nesting; `jsonLoads` supplies enough for any input it accepts). -/
def parseJsonValue : Nat → List Char → Option (JsonVal × List Char)
  | 0, _ => none
  | fuel + 1, input =>
    match skipJsonWs input with
    | [] => none
    | c :: rest =>
      if c = '"' then
        (parseJsonString rest).map (fun p => (JsonVal.string p.1, p.2))
      else if c = lbrace then parseJsonObjectBody fuel rest
      else if c = '[' then parseJsonArrayBody fuel rest
      else if c = 'n' then
        if "ull".data.isPrefixOf rest then some (.null, rest.drop 3) else none
      else if c = 't' then
        if "rue".data.isPrefixOf rest then some (.boolean true, rest.drop 3) else none
      else if c = 'f' then
        if "alse".data.isPrefixOf rest then some (.boolean false, rest.drop 4) else none
      else parseJsonNumber (c :: rest)

/-- Array body after `[`. -/
def parseJsonArrayBody : Nat → List Char → Option (JsonVal × List Char)
  | 0, _ => none
  | fuel + 1, input =>
    match skipJsonWs input with
    | ']' :: rest => some (.array [], rest)
    | _ =>
      match parseJsonValue fuel input with
      | none => none
      | some (v, r1) => parseJsonArrayRest fuel [v] r1

/-- Array elements after the first one (accumulator reversed). -/
def parseJsonArrayRest : Nat → List JsonVal → List Char → Option (JsonVal × List Char)
  | 0, _, _ => none
  | fuel + 1, acc, input =>
    match skipJsonWs input with
    | ']' :: rest => some (.array acc.reverse, rest)
    | ',' :: rest =>
      (match parseJsonValue fuel rest with
       | some (v, r) => parseJsonArrayRest fuel (v :: acc) r
       | none => none)
    | _ => none

/-- Object body after the opening brace. -/
def parseJsonObjectBody : Nat → List Char → Option (JsonVal × List Char)
  | 0, _ => none
  | fuel + 1, input =>
    match skipJsonWs input with
    | [] => none
    | c :: rest =>
      if c = rbrace then some (.object [], rest)
      else parseJsonMembers fuel [] input

/-- Object members, expecting a key (accumulator reversed). -/
def parseJsonMembers : Nat → List (List Char × JsonVal) → List Char →
    Option (JsonVal × List Char)
  | 0, _, _ => none
  | fuel + 1, acc, input =>
    match skipJsonWs input with
    | '"' :: rest =>
      (match parseJsonString rest with
       | none => none
       | some (k, r1) =>
         match skipJsonWs r1 with
         | ':' :: r2 =>
           (match parseJsonValue fuel r2 with
            | none => none
            | some (v, r3) =>
              match skipJsonWs r3 with
              | ',' :: r4 => parseJsonMembers fuel ((k, v) :: acc) r4
              | c :: r4 =>
                if c = rbrace then some (.object (acc.reverse ++ [(k, v)]), r4)
                else none
              | [] => none)
         | _ => none)
    | _ => none

end

/-- `json.loads`: parse one JSON value and require only whitespace after it. -/
def jsonLoads (l : List Char) : Option JsonVal :=
  match parseJsonValue (l.length + 1) l with
  | some (v, rest) => if skipJsonWs rest = [] then some v else none
  | none => none

/-- `llm_analyzer.AnalysisResult`. -/
structure AnalysisResult where
  implicit_tasks : List ImplicitTask
  incomplete_sections : List String
  unanswered_questions : List String
  summary : String
deriving DecidableEq

/-- `LLMAnalyzer._empty_result`. -/
def empty_result (summary : String) : AnalysisResult :=
  { implicit_tasks := [], incomplete_sections := [],
    unanswered_questions := [], summary := summary }

/-- Python `dict.get(key, default)` on parsed JSON objects (`json.loads`
keeps the last binding of a duplicated key). -/
def dictGet (kvs : List (List Char × JsonVal)) (k : List Char) (d : JsonVal) :
    JsonVal :=
  match kvs.reverse.find? (fun p => p.fst == k) with
  | some p => p.snd
  | none => d

/-- A JSON value read where the code expects a string (non-string shapes
never arise on the paths the verified properties exercise). -/
def asString (v : JsonVal) : String :=
  match v with
  | .string s => ⟨s⟩
  | _ => ""

/-- A JSON value read where the code expects a list of strings. -/
def asStringList (v : JsonVal) : List String :=
  match v with
  | .array xs => xs.filterMap (fun x => match x with
      | .string s => some (String.mk s)
      | _ => none)
  | _ => []

/-- One element of `data["implicit_tasks"]`: `task.get(...)` with the
defaults of `_parse_response`; a non-dict element raises `AttributeError`
(modelled as `Except.error`). -/
def buildImplicitTask (v : JsonVal) : Except String ImplicitTask :=
  match v with
  | .object kvs =>
    .ok { task := asString (dictGet kvs "task".data (.string [])),
          reason := asString (dictGet kvs "reason".data (.string [])),
          confidence := asString (dictGet kvs "confidence".data (.string "medium".data)),
          source_text := asString (dictGet kvs "source_text".data (.string [])) }
  | _ => .error "AttributeError: element has no attribute get"

/-- `for task in data.get("implicit_tasks", [])`: iterating a non-list value
either yields nothing (empty string / empty dict) or raises on its first
element (string characters and dict keys have no `.get`); non-iterable
values raise `TypeError`. -/
def buildImplicitTasks (v : JsonVal) : Except String (List ImplicitTask) :=
  match v with
  | .array xs => xs.mapM buildImplicitTask
  | .string s =>
    if s = [] then .ok [] else .error "AttributeError: str has no attribute get"
  | .object kvs =>
    if kvs.isEmpty then .ok [] else .error "AttributeError: str has no attribute get"
  | _ => .error "TypeError: object is not iterable"

/-- `LLMAnalyzer._parse_response`: extract the JSON span, `json.loads` it
(failure is caught inside `_parse_response` and yields the diagnostic empty
result), then read the object's keys with defaults.  Exceptions other than
`json.JSONDecodeError` escape `_parse_response` (to be caught by
`analyze_document`) and are modelled as `Except.error`. -/
def parse_response (response_text : String) : Except String AnalysisResult :=
  let json_str := extractJson response_text.data
  match jsonLoads json_str with
  | none => .ok (empty_result "Failed to parse response")
  | some (JsonVal.object kvs) =>
    (match buildImplicitTasks (dictGet kvs "implicit_tasks".data (.array [])) with
     | .error e => .error e
     | .ok its =>
       .ok { implicit_tasks := its,
             incomplete_sections :=
               asStringList (dictGet kvs "incomplete_sections".data (.array [])),
             unanswered_questions :=
               asStringList (dictGet kvs "unanswered_questions".data (.array [])),
             summary := asString (dictGet kvs "summary".data (.string [])) })
  | some _ => .error "AttributeError: data has no attribute get"

/-- `LLMAnalyzer.analyze_document`, with the engine's reply text passed in
(the transport is an external collaborator; transport failures take the same
caught-exception path as parsing failures).  Empty input short-circuits
without contacting the engine; every exception raised while handling the
reply is caught and converted to a diagnostic empty result. -/
def analyze_document (content : String) (response_text : String) : AnalysisResult :=
  if pyStrip content = "" then empty_result "Empty document"
  else
    match parse_response response_text with
    | .ok r => r
    | .error e => empty_result ("Error: " ++ e)

/-- Whether the engine reply contains a parseable JSON object: the extracted
span of `_parse_response` parses, and parses to an object. -/
def parsesToObject (response_text : String) : Bool :=
  match jsonLoads (extractJson response_text.data) with
  | some (JsonVal.object _) => true
  | _ => false

/-! ### Concrete example values (used by the witnesses below) -/

/-- A ledger row with the given judgment and defaulted fields. -/
def mkEntry (j : Judgment) : FeedbackEntry :=
  { task_text := "t", source_text := "", source_file := "", feedback := j,
    modified_text := none, reason := none, confidence := "medium",
    created_at := "2025-01-01", tags := [] }

/-- Output document with two checklist lines. -/
def exDoc : String := "- [ ] Buy milk\n- [x] Pay rent\n"

/-- Candidates for the dedup witness: each category holds one net-new item
and the pattern categories also hold an item already present in `exDoc`. -/
def exTasks : ExtendedTaskResult :=
  { added := ["Write tests", "buy milk"],
    completed := ["Ship release", "PAY RENT "],
    todos := ["fix bug"],
    implicit := [{ task := "Refactor config", reason := "mentioned",
                   confidence := "high", source_text := "src" }],
    incomplete_sections := [], unanswered_questions := [] }

/-- Candidates that are all duplicates of `exDoc` lines (no-op witness). -/
def exTasksDup : ExtendedTaskResult :=
  { added := ["buy milk"], completed := ["PAY RENT"], todos := [],
    implicit := [], incomplete_sections := [], unanswered_questions := [] }

/-- Document whose first line is a dangling checkbox prefix: the unchecked
pattern's `\s*` crosses the newline, so its single match captures the whole
second line `- [ ] Buy milk` as group 2. -/
def swallowDoc : String := "- [ ]\n- [ ] Buy milk\n"

/-- A candidate equal to the capture of `swallowDoc`'s second checkbox
line. -/
def swallowTasks : ExtendedTaskResult :=
  { added := ["Buy milk"], completed := [], todos := [], implicit := [],
    incomplete_sections := [], unanswered_questions := [] }

/-- Document on which the unchecked pass captures the entire checked line:
`\s*` consumes the newline after the dangling `- [ ]`, so group 2 of the
unchecked match is `- [x] Pay`, the very line the checked pass matches. -/
def overlapDoc : String := "- [ ]\n- [x] Pay\n"

/-- Ledger with 19 accepted and 2 missed entries: the missed/accepted ratio
`2/19` exceeds `0.1`, while the code's recall ratio `2/21` does not. -/
def cexLedger : List FeedbackEntry :=
  List.replicate 19 (mkEntry .accepted) ++ List.replicate 2 (mkEntry .missed)

/-- Ledger with a single accepted entry. -/
def oneEntryLedger : List FeedbackEntry := [mkEntry .accepted]

/-- Ledger with two entries (below the feedback threshold). -/
def twoEntryLedger : List FeedbackEntry := [mkEntry .accepted, mkEntry .missed]

/-! ### Helper lemmas -/

theorem char_eq_of_toNat_eq {a b : Char} (h : a.toNat = b.toNat) : a = b :=
  Char.ext (UInt32.toNat.inj h)

theorem toNat_ofNat_lt {n : Nat} (h : n < 55296) : (Char.ofNat n).toNat = n := by
  rw [Char.ofNat, dif_pos (Or.inl h : Nat.isValidChar n)]
  simp [Char.ofNatAux, Char.toNat, UInt32.toNat]

theorem toUpper_toNat (c : Char) :
    (Char.toUpper c).toNat =
      if 97 ≤ c.toNat ∧ c.toNat ≤ 122 then c.toNat - 32 else c.toNat := by
  unfold Char.toUpper
  split
  · rw [if_pos (by omega)]
    exact toNat_ofNat_lt (by omega)
  · rw [if_neg (by omega)]

theorem toLower_toNat (c : Char) :
    (Char.toLower c).toNat =
      if 65 ≤ c.toNat ∧ c.toNat ≤ 90 then c.toNat + 32 else c.toNat := by
  unfold Char.toLower
  split
  · rw [if_pos (by omega)]
    exact toNat_ofNat_lt (by omega)
  · rw [if_neg (by omega)]

theorem isPySpace_toUpper (c : Char) : isPySpace (Char.toUpper c) = isPySpace c := by
  have h := toUpper_toNat c
  unfold isPySpace
  apply decide_eq_decide.mpr
  by_cases hr : 97 ≤ c.toNat ∧ c.toNat ≤ 122
  · rw [if_pos hr] at h
    omega
  · rw [if_neg hr] at h
    omega

theorem toLower_toUpper (c : Char) : (Char.toUpper c).toLower = c.toLower := by
  apply char_eq_of_toNat_eq
  have h2 := toLower_toNat (Char.toUpper c)
  have h3 := toLower_toNat c
  have h1 := toUpper_toNat c
  by_cases hr : 97 ≤ c.toNat ∧ c.toNat ≤ 122
  · rw [if_pos hr] at h1
    rw [h1] at h2
    rw [if_pos (by omega)] at h2
    rw [if_neg (by omega)] at h3
    omega
  · rw [if_neg hr] at h1
    rw [h1] at h2
    omega

theorem pyStripChars_map_toUpper (l : List Char) :
    pyStripChars (l.map Char.toUpper) = (pyStripChars l).map Char.toUpper := by
  have hp : (isPySpace ∘ Char.toUpper) = isPySpace := funext isPySpace_toUpper
  unfold pyStripChars
  rw [List.dropWhile_map, hp, ← List.map_reverse, List.dropWhile_map, hp,
    ← List.map_reverse]

theorem map_toLower_map_toUpper (l : List Char) :
    (l.map Char.toUpper).map Char.toLower = l.map Char.toLower := by
  rw [List.map_map]
  exact List.map_congr_left (fun c _ => toLower_toUpper c)

/-! ### Claim theorems -/

theorem pyUpperChar_of_ascii {c : Char} (h : c.toNat < 128) :
    pyUpperChar c = [Char.toUpper c] := by
  unfold pyUpperChar
  rw [if_neg]
  intro he
  subst he
  simp at h

theorem flatMap_pyUpperChar_of_ascii (l : List Char) (h : ∀ c ∈ l, c.toNat < 128) :
    l.flatMap pyUpperChar = l.map Char.toUpper := by
  induction l with
  | nil => rfl
  | cons c t ih =>
    rw [List.flatMap_cons, List.map_cons,
      ih (fun d hd => h d (List.mem_cons_of_mem _ hd)),
      pyUpperChar_of_ascii (h c (List.mem_cons_self c t))]
    rfl

/-- C9 counterexample: Python's `str.upper` maps `'ß'` to `"SS"` while
`str.lower` keeps `'ß'`, so `normalize("ß") = "ß" ≠ "ss" =
normalize("ß".upper())` — the claimed identity fails on non-ASCII input. -/
theorem normalize_upper_fails_on_eszett :
    normalize_task true "ß" ≠ normalize_task true (pyUpper "ß") := by decide

/-- C9 (amended): for every task string `T` made of ASCII characters,
normalization with case-insensitive mode enabled is invariant under
uppercasing: `normalize(T) == normalize(T.upper())`.  Outside ASCII the
identity fails (see the `'ß'` counterexample). -/
theorem normalize_invariant_under_upper (T : String)
    (h : ∀ c ∈ T.data, c.toNat < 128) :
    normalize_task true T = normalize_task true (pyUpper T) := by
  show pyLower (pyStrip T) = pyLower (pyStrip (pyUpper T))
  unfold pyLower pyStrip pyUpper
  apply congrArg String.mk
  show (pyStripChars T.data).map Char.toLower
      = (pyStripChars (T.data.flatMap pyUpperChar)).map Char.toLower
  rw [flatMap_pyUpperChar_of_ascii T.data h, pyStripChars_map_toUpper,
    map_toLower_map_toUpper]

/-- C6 counterexample: on `"- [ ]\n- [x] Pay\n"` the unchecked pass — its
`\s*` consuming the newline after the dangling `- [ ]` — captures the whole
second line `- [x] Pay`, while the checked pass matches that same line and
captures `Pay`: the line `- [x] Pay` of the document is captured by both
passes, so the per-line disjointness claim fails. -/
theorem unchecked_checked_same_line_capture :
    "- [x] Pay" ∈ pyLines overlapDoc
    ∧ finditer uncheckedAt overlapDoc.data = [("- [x] Pay" : String).data]
    ∧ finditer checkedAt overlapDoc.data = [("Pay" : String).data]
    ∧ (checkedAt ("- [x] Pay" : String).data).map Prod.fst
        = some (("Pay" : String).data) := by
  refine ⟨by decide, by decide, by decide, by decide⟩

/-- C6 (amended): the unchecked and checked patterns never both match at the
same anchor position — in particular a single line considered in isolation
is never matched by both; a line can be captured by both passes only as the
tail of a newline-spanning match that began at an earlier line's anchor
(the checkbox interior at one anchor cannot be both blank and an `x`). -/
theorem unchecked_checked_disjoint (l : List Char) :
    uncheckedAt l = none ∨ checkedAt l = none := by
  unfold uncheckedAt checkedAt
  cases hb : bulletHead l with
  | none => exact Or.inl rfl
  | some p =>
    obtain ⟨ind, r⟩ := p
    cases r with
    | nil => exact Or.inr rfl
    | cons c r2 =>
      by_cases hc : c = 'x' ∨ c = 'X'
      · left
        have hs : (c :: r2).dropWhile isPySpace = c :: r2 := by
          rcases hc with h | h <;> subst h <;>
            simp [List.dropWhile_cons, isPySpace]
        show (match (c :: r2).dropWhile isPySpace with
              | ']' :: r3 => tailCapture r3
              | _ => none) = none
        rw [hs]
        rcases hc with h | h <;> subst h <;> rfl
      · right
        simp only [if_neg hc]

theorem append_added_eq (sd ci : Bool) (doc : String) (tasks : ExtendedTaskResult)
    (source timestamp : String) :
    (append_to_tasks_file sd ci doc tasks source timestamp).added
      = (filtered_tasks sd ci doc tasks).added := by
  simp only [append_to_tasks_file]
  split <;> rfl

theorem append_completed_eq (sd ci : Bool) (doc : String) (tasks : ExtendedTaskResult)
    (source timestamp : String) :
    (append_to_tasks_file sd ci doc tasks source timestamp).completed
      = (filtered_tasks sd ci doc tasks).completed := by
  simp only [append_to_tasks_file]
  split <;> rfl

theorem append_todos_eq (sd ci : Bool) (doc : String) (tasks : ExtendedTaskResult)
    (source timestamp : String) :
    (append_to_tasks_file sd ci doc tasks source timestamp).todos
      = (filtered_tasks sd ci doc tasks).todos := by
  simp only [append_to_tasks_file]
  split <;> rfl

theorem append_implicit_eq (sd ci : Bool) (doc : String) (tasks : ExtendedTaskResult)
    (source timestamp : String) :
    (append_to_tasks_file sd ci doc tasks source timestamp).implicit
      = (filtered_tasks sd ci doc tasks).implicit := by
  simp only [append_to_tasks_file]
  split <;> rfl

theorem append_incomplete_eq (sd ci : Bool) (doc : String) (tasks : ExtendedTaskResult)
    (source timestamp : String) :
    (append_to_tasks_file sd ci doc tasks source timestamp).incomplete_sections
      = tasks.incomplete_sections := by
  simp only [append_to_tasks_file]
  split <;> rfl

theorem append_unanswered_eq (sd ci : Bool) (doc : String) (tasks : ExtendedTaskResult)
    (source timestamp : String) :
    (append_to_tasks_file sd ci doc tasks source timestamp).unanswered_questions
      = tasks.unanswered_questions := by
  simp only [append_to_tasks_file]
  split <;> rfl

/-- C1 counterexample: on `swallowDoc = "- [ ]\n- [ ] Buy milk\n"` the
unchecked pass's single match swallows the second line, so the program's
existing set holds only `"- [ ] buy milk"`; the checkbox line
`- [ ] Buy milk` is present in the document with capture `Buy milk`, yet
the merge with dedup enabled appends the candidate `"Buy milk"` — the claim
that a candidate matching a present checkbox line is never appended fails. -/
theorem merge_dedup_appends_swallowed_line :
    "- [ ] Buy milk" ∈ pyLines swallowDoc
    ∧ (uncheckedAt ("- [ ] Buy milk" : String).data).map Prod.fst
        = some (("Buy milk" : String).data)
    ∧ get_existing_tasks true swallowDoc = [normalize_task true "- [ ] Buy milk"]
    ∧ "Buy milk" ∈ (append_to_tasks_file true true swallowDoc swallowTasks
        "doc.md" "2025-01-01 00:00").added := by
  refine ⟨by decide, by decide, by decide, by decide⟩

/-- C1 (amended): with deduplication enabled, no candidate that survives the
merge — added, completed, todo, or implicit — has a normalized text that is
already in the existing-task set the merge reads from the output document:
the normalized group-2 captures of the unchecked and checked `finditer`
passes.  (A newline-spanning match may swallow a checkbox line into another
capture, so this set can omit a checkbox line that is present; see the
counterexample.) -/
theorem merge_dedup_never_appends_existing (ci : Bool) (doc : String)
    (tasks : ExtendedTaskResult) (source timestamp : String) :
    (∀ t ∈ (append_to_tasks_file true ci doc tasks source timestamp).added,
        normalize_task ci t ∉ get_existing_tasks ci doc)
    ∧ (∀ t ∈ (append_to_tasks_file true ci doc tasks source timestamp).completed,
        normalize_task ci t ∉ get_existing_tasks ci doc)
    ∧ (∀ t ∈ (append_to_tasks_file true ci doc tasks source timestamp).todos,
        normalize_task ci t ∉ get_existing_tasks ci doc)
    ∧ (∀ t ∈ (append_to_tasks_file true ci doc tasks source timestamp).implicit,
        normalize_task ci t.task ∉ get_existing_tasks ci doc) := by
  rw [append_added_eq, append_completed_eq, append_todos_eq, append_implicit_eq]
  simp only [filtered_tasks]
  refine ⟨?_, ?_, ?_, ?_⟩ <;> intro t ht
  · rw [if_pos trivial] at ht
    exact of_decide_eq_true (List.mem_filter.mp ht).2
  · rw [if_pos trivial] at ht
    exact of_decide_eq_true (List.mem_filter.mp ht).2
  · rw [if_pos trivial] at ht
    exact of_decide_eq_true (List.mem_filter.mp ht).2
  · rw [Bool.true_and] at ht
    cases he : tasks.implicit.isEmpty with
    | false =>
      rw [he] at ht
      simp only [Bool.not_false] at ht
      rw [if_pos trivial] at ht
      exact of_decide_eq_true (List.mem_filter.mp ht).2
    | true =>
      rw [he] at ht
      simp only [Bool.not_true] at ht
      rw [if_neg (by decide)] at ht
      rw [List.isEmpty_iff.mp he] at ht
      exact absurd ht (List.not_mem_nil t)

/-- C7: when duplicate filtering leaves all six categories empty, the merge
writes nothing: the output document is unchanged and no write is reported. -/
theorem merge_noop_when_nothing_left (sd ci : Bool) (doc : String)
    (tasks : ExtendedTaskResult) (source timestamp : String)
    (h1 : (append_to_tasks_file sd ci doc tasks source timestamp).added = [])
    (h2 : (append_to_tasks_file sd ci doc tasks source timestamp).completed = [])
    (h3 : (append_to_tasks_file sd ci doc tasks source timestamp).todos = [])
    (h4 : (append_to_tasks_file sd ci doc tasks source timestamp).implicit = [])
    (h5 : (append_to_tasks_file sd ci doc tasks source timestamp).incomplete_sections = [])
    (h6 : (append_to_tasks_file sd ci doc tasks source timestamp).unanswered_questions = []) :
    (append_to_tasks_file sd ci doc tasks source timestamp).doc = doc
    ∧ (append_to_tasks_file sd ci doc tasks source timestamp).wrote = false := by
  rw [append_added_eq] at h1
  rw [append_completed_eq] at h2
  rw [append_todos_eq] at h3
  rw [append_implicit_eq] at h4
  rw [append_incomplete_eq] at h5
  rw [append_unanswered_eq] at h6
  have hf : (filtered_tasks sd ci doc tasks).incomplete_sections = [] := h5
  have hg : (filtered_tasks sd ci doc tasks).unanswered_questions = [] := h6
  simp only [append_to_tasks_file]
  split
  case isTrue h =>
    exfalso
    rw [h1, h2, h3, h4, hf, hg] at h
    simp at h
  case isFalse h => exact ⟨rfl, rfl⟩

theorem length_eq_sum_countJudgment (l : List FeedbackEntry) :
    l.length = countJudgment .accepted l + countJudgment .rejected l
      + countJudgment .modified l + countJudgment .missed l := by
  induction l with
  | nil => rfl
  | cons e t ih =>
    unfold countJudgment at ih ⊢
    cases he : e.feedback <;>
      simp [List.filter_cons, he] <;> omega

/-- C2: ledger statistics satisfy `total = accepted + rejected + modified +
missed`, and the acceptance rate is `accepted / (accepted + rejected +
modified)` — missed entries excluded from the denominator — with rate `0`
when that denominator is zero. -/
theorem get_stats_invariants (ledger : List FeedbackEntry) :
    (get_stats ledger).total =
      (get_stats ledger).accepted + (get_stats ledger).rejected
        + (get_stats ledger).modified + (get_stats ledger).missed
    ∧ (get_stats ledger).acceptance_rate =
        (if (get_stats ledger).accepted + (get_stats ledger).rejected
            + (get_stats ledger).modified = 0 then 0
         else ((get_stats ledger).accepted : ℚ)
           / (((get_stats ledger).accepted : ℚ) + ((get_stats ledger).rejected : ℚ)
             + ((get_stats ledger).modified : ℚ))) := by
  constructor
  · exact length_eq_sum_countJudgment ledger
  · simp only [get_stats]
    rcases Nat.eq_zero_or_pos (countJudgment .accepted ledger
        + countJudgment .rejected ledger + countJudgment .modified ledger) with hz | hp
    · rw [if_neg (by omega), if_pos hz]
    · rw [if_pos hp, if_neg (by omega)]
      push_cast
      rfl

theorem get_examples_some_length (ledger : List FeedbackEntry) (j : Judgment)
    (limit : Nat) :
    (get_examples ledger (some j) limit).length = min limit (countJudgment j ledger) := by
  unfold get_examples countJudgment
  rw [List.length_take, List.length_reverse]

/-- C8: each bucket of `get_balanced_examples` holds at most
`count_per_type` entries, and holds fewer only when the ledger holds fewer
entries of that judgment kind (no padding). -/
theorem balanced_examples_per_kind_bound (ledger : List FeedbackEntry)
    (count_per_type : Nat) (j : Judgment) :
    (balancedBucket (get_balanced_examples ledger count_per_type) j).length
      ≤ count_per_type
    ∧ ((balancedBucket (get_balanced_examples ledger count_per_type) j).length
        < count_per_type → countJudgment j ledger < count_per_type) := by
  have hb : balancedBucket (get_balanced_examples ledger count_per_type) j
      = get_examples ledger (some j) count_per_type := by
    cases j <;> rfl
  rw [hb, get_examples_some_length]
  exact ⟨Nat.min_le_left _ _, fun h => by omega⟩

/-- C4 counterexample: in a ledger with 19 accepted and 2 missed entries the
missed/accepted ratio `2/19` exceeds `0.1`, yet `_load_feedback_examples`
adds no aggressiveness directive (its recall ratio is `2/21 ≤ 0.1`), so the
claimed "exactly when missed/accepted exceeds 0.1" fails. -/
theorem aggressiveness_missed_over_accepted_fails :
    3 ≤ (get_stats cexLedger).total
    ∧ (1 : ℚ)/10 < ((get_stats cexLedger).missed : ℚ)
        / ((get_stats cexLedger).accepted : ℚ)
    ∧ (feedback_guidance cexLedger).aggressiveness = none := by
  have hm : (get_stats cexLedger).missed = 2 := by decide
  have ha : (get_stats cexLedger).accepted = 19 := by decide
  refine ⟨by decide, ?_, ?_⟩
  · rw [hm, ha]
    norm_num
  · norm_num [feedback_guidance, hm, ha]

/-- C4 (amended): with non-empty feedback context (ledger total ≥ 3) the
conservatism directive is included exactly when `acceptance_rate < 0.5`, and
the aggressiveness directive exactly when `missed / (accepted + missed)`
exceeds `0.1` (the code's recall ratio, not the claimed missed/accepted). -/
theorem feedback_guidance_directives (ledger : List FeedbackEntry)
    (_h : 3 ≤ (get_stats ledger).total) :
    ((feedback_guidance ledger).conservatism.isSome
        ↔ (get_stats ledger).acceptance_rate < 1/2)
    ∧ ((feedback_guidance ledger).aggressiveness.isSome
        ↔ (1 : ℚ)/10 < ((get_stats ledger).missed : ℚ)
            / (((get_stats ledger).accepted : ℚ) + ((get_stats ledger).missed : ℚ))) := by
  refine ⟨?_, ?_⟩
  · by_cases hc : (get_stats ledger).acceptance_rate < 1/2
    · simp [feedback_guidance, hc]
    · simp [feedback_guidance, hc]
  · rcases Nat.eq_zero_or_pos (get_stats ledger).missed with hm | hm
    · have hnone : (feedback_guidance ledger).aggressiveness = none := by
        simp [feedback_guidance, hm]
      rw [hnone]
      simp only [Option.isSome_none, Bool.false_eq_true, false_iff, hm,
        Nat.cast_zero, zero_div, not_lt]
      norm_num
    · have hnat : 0 < (get_stats ledger).accepted + (get_stats ledger).missed := by
        omega
      by_cases hr : (1 : ℚ)/10 < ((get_stats ledger).missed : ℚ)
          / (((get_stats ledger).accepted : ℚ) + ((get_stats ledger).missed : ℚ))
      · simp [feedback_guidance, hm, hnat, hr]
      · simp [feedback_guidance, hm, hnat, hr]

/-- C10: with feedback use enabled and a ledger holding fewer than 3 entries,
no feedback section is injected: the system prompt is exactly the fixed
analysis prompt. -/
theorem system_prompt_below_threshold (ledger : List FeedbackEntry)
    (h : ledger.length < 3) :
    system_prompt true ledger = ANALYSIS_PROMPT := by
  have htot : (get_stats ledger).total = ledger.length := rfl
  have hctx : feedback_context ledger = "" := by
    unfold feedback_context
    rw [if_neg (by omega)]
  simp [system_prompt, hctx]

/-- C3: for every engine reply whose extracted span does not parse to a JSON
object, `analyze_document` returns an analysis result with no implicit
tasks, no incomplete sections, no unanswered questions and a non-empty
diagnostic summary; being a total function of the reply, no exception
reaches the caller. -/
theorem analyze_document_tolerates_unparseable_reply (content response_text : String)
    (h : parsesToObject response_text = false) :
    (analyze_document content response_text).implicit_tasks = []
    ∧ (analyze_document content response_text).incomplete_sections = []
    ∧ (analyze_document content response_text).unanswered_questions = []
    ∧ (analyze_document content response_text).summary ≠ "" := by
  unfold analyze_document
  split
  · exact ⟨rfl, rfl, rfl, by decide⟩
  · unfold parsesToObject at h
    cases hj : jsonLoads (extractJson response_text.data) with
    | none =>
      have hpr : parse_response response_text
          = .ok (empty_result "Failed to parse response") := by
        simp only [parse_response, hj]
      rw [hpr]
      exact ⟨rfl, rfl, rfl, by decide⟩
    | some v =>
      rw [hj] at h
      cases v with
      | object kvs => exact Bool.noConfusion h
      | null =>
        have hpr : parse_response response_text
            = .error "AttributeError: data has no attribute get" := by
          simp only [parse_response, hj]
        rw [hpr]
        exact ⟨rfl, rfl, rfl, by decide⟩
      | boolean b =>
        have hpr : parse_response response_text
            = .error "AttributeError: data has no attribute get" := by
          simp only [parse_response, hj]
        rw [hpr]
        exact ⟨rfl, rfl, rfl, by decide⟩
      | number raw =>
        have hpr : parse_response response_text
            = .error "AttributeError: data has no attribute get" := by
          simp only [parse_response, hj]
        rw [hpr]
        exact ⟨rfl, rfl, rfl, by decide⟩
      | string s =>
        have hpr : parse_response response_text
            = .error "AttributeError: data has no attribute get" := by
          simp only [parse_response, hj]
        rw [hpr]
        exact ⟨rfl, rfl, rfl, by decide⟩
      | array xs =>
        have hpr : parse_response response_text
            = .error "AttributeError: data has no attribute get" := by
          simp only [parse_response, hj]
        rw [hpr]
        exact ⟨rfl, rfl, rfl, by decide⟩

/-! ### Witnesses -/

/-- Witness for C1 at a concrete document and candidate set. -/
theorem merge_dedup_witness :
    normalize_task true "Write tests" ∉ get_existing_tasks true exDoc
    ∧ normalize_task true "Ship release" ∉ get_existing_tasks true exDoc
    ∧ normalize_task true "fix bug" ∉ get_existing_tasks true exDoc
    ∧ normalize_task true "Refactor config" ∉ get_existing_tasks true exDoc :=
  ⟨(merge_dedup_never_appends_existing true exDoc exTasks "notes.md" "2025-01-01 00:00").1
      "Write tests" (by decide),
   (merge_dedup_never_appends_existing true exDoc exTasks "notes.md" "2025-01-01 00:00").2.1
      "Ship release" (by decide),
   (merge_dedup_never_appends_existing true exDoc exTasks "notes.md" "2025-01-01 00:00").2.2.1
      "fix bug" (by decide),
   (merge_dedup_never_appends_existing true exDoc exTasks "notes.md" "2025-01-01 00:00").2.2.2
      ⟨"Refactor config", "mentioned", "high", "src"⟩ (by decide)⟩

/-- Witness for C3 at the reply text `"not json"`. -/
theorem analyze_document_not_json_witness :
    (analyze_document "Some document" "not json").implicit_tasks = []
    ∧ (analyze_document "Some document" "not json").incomplete_sections = []
    ∧ (analyze_document "Some document" "not json").unanswered_questions = []
    ∧ (analyze_document "Some document" "not json").summary ≠ "" :=
  analyze_document_tolerates_unparseable_reply "Some document" "not json" (by decide)

/-- Witness for the amended C4 at a concrete ledger above the threshold. -/
theorem feedback_guidance_directives_witness :
    ((feedback_guidance cexLedger).conservatism.isSome
        ↔ (get_stats cexLedger).acceptance_rate < 1/2)
    ∧ ((feedback_guidance cexLedger).aggressiveness.isSome
        ↔ (1 : ℚ)/10 < ((get_stats cexLedger).missed : ℚ)
            / (((get_stats cexLedger).accepted : ℚ) + ((get_stats cexLedger).missed : ℚ))) :=
  feedback_guidance_directives cexLedger (by decide)

/-- Witness for C7: all-duplicate candidates leave the document unchanged. -/
theorem merge_noop_witness :
    (append_to_tasks_file true true exDoc exTasksDup "notes.md" "ts").doc = exDoc
    ∧ (append_to_tasks_file true true exDoc exTasksDup "notes.md" "ts").wrote = false :=
  merge_noop_when_nothing_left true true exDoc exTasksDup "notes.md" "ts"
    (by decide) (by decide) (by decide) (by decide) (by decide) (by decide)

/-- Witness for C8 at a one-entry ledger with a per-kind limit of 2. -/
theorem balanced_examples_witness :
    (balancedBucket (get_balanced_examples oneEntryLedger 2) .accepted).length ≤ 2
    ∧ countJudgment .accepted oneEntryLedger < 2 :=
  ⟨(balanced_examples_per_kind_bound oneEntryLedger 2 .accepted).1,
   (balanced_examples_per_kind_bound oneEntryLedger 2 .accepted).2 (by decide)⟩

/-- Witness for C10 at a two-entry ledger. -/
theorem system_prompt_witness :
    system_prompt true twoEntryLedger = ANALYSIS_PROMPT :=
  system_prompt_below_threshold twoEntryLedger (by decide)

/-- Witness for the amended C9 at a concrete ASCII task string. -/
theorem normalize_invariant_witness :
    normalize_task true "  Buy Milk " = normalize_task true (pyUpper "  Buy Milk ") :=
  normalize_invariant_under_upper "  Buy Milk " (by decide)

end TaskPicker
